import Mathlib

/-
  Verification of the per-frame camera update pipeline of bevy_panorbit_camera
  (src/lib.rs): the active-viewport resolver and the orbit update engine.

  Embedding conventions:
  * f32 scalars are embedded as rationals (exact arithmetic, no rounding).
  * The repository's util module is not part of the sources provided; its
    helpers are either modelled from the spec (apply_limits, lerp_and_snap)
    or abstracted as parameters (trigonometric conversions, normalization),
    since no claim depends on their numeric output.
  * Bevy input plumbing (buttons, modifiers) is summarized by the booleans
    the code consumes, as the spec describes them.
-/

namespace POC

/-- Two-dimensional vector of rationals, embedding glam Vec2. -/
structure Vec2 where
  x : ℚ
  y : ℚ
deriving DecidableEq

/-- Three-dimensional vector of rationals, embedding glam Vec3. -/
structure Vec3 where
  x : ℚ
  y : ℚ
  z : ℚ
deriving DecidableEq

instance : Add Vec2 := ⟨fun a b => ⟨a.x + b.x, a.y + b.y⟩⟩

instance : HMul Vec2 ℚ Vec2 := ⟨fun a s => ⟨a.x * s, a.y * s⟩⟩

instance : Add Vec3 := ⟨fun a b => ⟨a.x + b.x, a.y + b.y, a.z + b.z⟩⟩

instance : Sub Vec3 := ⟨fun a b => ⟨a.x - b.x, a.y - b.y, a.z - b.z⟩⟩

instance : HMul Vec3 ℚ Vec3 := ⟨fun a s => ⟨a.x * s, a.y * s, a.z * s⟩⟩

/-- Squared length of a Vec2 (glam length_squared). -/
def Vec2.lengthSquared (v : Vec2) : ℚ := v.x * v.x + v.y * v.y

/-- Zero vector (glam Vec2::ZERO). -/
def Vec2.zero : Vec2 := ⟨0, 0⟩

/-- Zero vector (glam Vec3::ZERO). -/
def Vec3.zero : Vec3 := ⟨0, 0, 0⟩

/-- Exact rational value of std::f32::consts::PI (the f32 closest to pi). -/
def PI : ℚ := 13176795 / 4194304

/-- Exact rational value of std::f32::consts::TAU (equals 2 * PI in f32). -/
def TAU : ℚ := 13176795 / 2097152

/-- Rust f32::signum: 1 for non-negative values, -1 for negative values
(rationals have no negative zero or NaN). -/
def rustSignum (q : ℚ) : ℚ := if 0 ≤ q then 1 else -1

/-- Truncation toward zero of a rational, as Rust float-to-integer truncation. -/
def rustTrunc (q : ℚ) : ℤ := if 0 ≤ q then ⌊q⌋ else -⌊-q⌋

/-- Rust % on floats: remainder with the sign of the dividend,
x - y * trunc (x / y). -/
def rustRem (x y : ℚ) : ℚ := x - y * rustTrunc (x / y)

/-- Mathematical modulo wrapping x into the interval from 0 (inclusive) to y
(exclusive) for y positive: x - y * floor (x / y). -/
def qmod (x y : ℚ) : ℚ := x - y * ⌊x / y⌋

/-- Camera transform data read and written by the engine: the translation and
the local right/up axes derived from the rotation (bevy Transform). -/
structure Transform where
  translation : Vec3
  right : Vec3
  up : Vec3
deriving DecidableEq

/-- Camera projection, embedding bevy Projection: perspective carries the
field of view and aspect quotient; orthographic carries its scale and the
width and height of its projection area. -/
inductive Projection where
  | perspective (fov aspect : ℚ)
  | orthographic (scale area_w area_h : ℚ)
deriving DecidableEq

/-- The PanOrbitCamera component state, lines 74-221 of src/lib.rs.
Buttons and keys are embedded as codes (Nat); they are consumed only through
the input booleans of FrameInput below. -/
structure PanOrbitCamera where
  focus : Vec3
  radius : Option ℚ
  scale : Option ℚ
  alpha : Option ℚ
  beta : Option ℚ
  target_focus : Vec3
  target_alpha : ℚ
  target_beta : ℚ
  target_radius : ℚ
  target_scale : ℚ
  alpha_upper_limit : Option ℚ
  alpha_lower_limit : Option ℚ
  beta_upper_limit : Option ℚ
  beta_lower_limit : Option ℚ
  zoom_upper_limit : Option ℚ
  zoom_lower_limit : Option ℚ
  focus_x_upper_limit : Option ℚ
  focus_x_lower_limit : Option ℚ
  focus_y_upper_limit : Option ℚ
  focus_y_lower_limit : Option ℚ
  focus_z_upper_limit : Option ℚ
  focus_z_lower_limit : Option ℚ
  orbit_sensitivity : ℚ
  orbit_smoothness : ℚ
  pan_sensitivity : ℚ
  pan_smoothness : ℚ
  zoom_sensitivity : ℚ
  zoom_smoothness : ℚ
  button_orbit : Nat
  button_pan : Nat
  modifier_orbit : Option Nat
  modifier_pan : Option Nat
  modifier_orbit_touchpad : Option Nat
  reversed_zoom : Bool
  is_upside_down : Bool
  allow_upside_down : Bool
  enabled : Bool
  initialized : Bool
  force_update : Bool
deriving DecidableEq

/-- The Default impl for PanOrbitCamera, lines 223-267 of src/lib.rs. -/
def PanOrbitCamera.default : PanOrbitCamera where
  focus := Vec3.zero
  target_focus := Vec3.zero
  radius := none
  is_upside_down := false
  allow_upside_down := false
  orbit_sensitivity := 1
  orbit_smoothness := 4/5
  pan_sensitivity := 1
  pan_smoothness := 3/5
  zoom_sensitivity := 1
  zoom_smoothness := 4/5
  button_orbit := 0
  button_pan := 1
  modifier_orbit := none
  modifier_pan := none
  modifier_orbit_touchpad := none
  reversed_zoom := false
  enabled := true
  alpha := none
  beta := none
  scale := none
  target_alpha := 0
  target_beta := 0
  target_radius := 1
  target_scale := 1
  initialized := false
  alpha_upper_limit := none
  alpha_lower_limit := none
  beta_upper_limit := none
  beta_lower_limit := none
  zoom_upper_limit := none
  zoom_lower_limit := none
  focus_x_upper_limit := none
  focus_x_lower_limit := none
  focus_y_upper_limit := none
  focus_y_lower_limit := none
  focus_z_upper_limit := none
  focus_z_lower_limit := none
  force_update := false

/-- The ActiveCameraData resource, lines 274-292 of src/lib.rs; camera
entities are embedded as Nat identifiers. -/
structure ActiveCameraData where
  entity : Option Nat
  viewport_size : Option Vec2
  window_size : Option Vec2
  manual : Bool
deriving DecidableEq

/-- Derived Default for ActiveCameraData: everything empty, manual false. -/
def ActiveCameraData.default : ActiveCameraData :=
  ⟨none, none, none, false⟩

/-- Modelled from the spec: util::apply_limits (the util module is not among
the provided sources). Clamps a value against an optional upper and lower
bound; per the spec's error-handling note the upper limit is applied after
the lower one, so an inverted pair collapses to the upper bound. -/
def apply_limits (value : ℚ) (upper lower : Option ℚ) : ℚ :=
  let low := match lower with
    | some l => max value l
    | none => value
  match upper with
  | some u => min low u
  | none => low

/-- The per-instance zoom clamp closure, lines 388-392 of src/lib.rs:
configured limits first, then a hard floor of 0.05. -/
def apply_zoom_limits (st : PanOrbitCamera) (zoom : ℚ) : ℚ :=
  max (apply_limits zoom st.zoom_upper_limit st.zoom_lower_limit) (1/20)

/-- The per-instance alpha clamp closure, lines 394-398 of src/lib.rs. -/
def apply_alpha_limits (st : PanOrbitCamera) (alpha : ℚ) : ℚ :=
  apply_limits alpha st.alpha_upper_limit st.alpha_lower_limit

/-- The per-instance beta clamp closure, lines 400-404 of src/lib.rs. -/
def apply_beta_limits (st : PanOrbitCamera) (beta : ℚ) : ℚ :=
  apply_limits beta st.beta_upper_limit st.beta_lower_limit

/-- The per-instance focus clamp closure, lines 406-423 of src/lib.rs:
each axis clamped independently. -/
def apply_focus_limits (st : PanOrbitCamera) (focus : Vec3) : Vec3 where
  x := apply_limits focus.x st.focus_x_upper_limit st.focus_x_lower_limit
  y := apply_limits focus.y st.focus_y_upper_limit st.focus_y_lower_limit
  z := apply_limits focus.z st.focus_z_upper_limit st.focus_z_lower_limit

/-- Modelled from the spec: util::lerp_and_snap_f32 (util module not among the
provided sources). Exponential interpolation toward the target with snap to
the exact target once within a small epsilon; smoothness 0 jumps directly to
the target. -/
def lerp_and_snap_f32 (current target smoothness : ℚ) : ℚ :=
  let next := current + (target - current) * (1 - smoothness)
  if |target - next| < 1/1000 then target else next

/-- Modelled from the spec: util::lerp_and_snap_vec3, componentwise
application of the scalar smoothing primitive. -/
def lerp_and_snap_vec3 (current target : Vec3) (smoothness : ℚ) : Vec3 where
  x := lerp_and_snap_f32 current.x target.x smoothness
  y := lerp_and_snap_f32 current.y target.y smoothness
  z := lerp_and_snap_f32 current.z target.z smoothness

/-- Modelled from the spec: the util helpers whose output involves
trigonometry (spherical conversion in both directions) and glam's
normalize_or_zero. No claim depends on their numeric values, so they are
abstracted as an arbitrary implementation passed to the engine. -/
structure UtilModel where
  calculate_from_translation_and_focus : Vec3 → Vec3 → ℚ × ℚ × ℚ
  update_orbit_transform : ℚ → ℚ → ℚ → Vec3 → Transform
  normalize_or_zero : Vec3 → Vec3

/-- Scroll event unit, embedding bevy MouseScrollUnit. -/
inductive ScrollUnit where
  | line
  | pixel
deriving DecidableEq

/-- One MouseWheel event: unit plus its two-dimensional magnitude. -/
structure ScrollEvent where
  unit : ScrollUnit
  x : ℚ
  y : ℚ

/-- The raw input consumed by one run of the pan_orbit_camera system.
mouseDelta is the summed MouseMotion delta (line 384). The four button
booleans embed the util button/modifier helpers, modelled from the spec:
orbitPressed and panPressed are the held combos, the just-pressed and
just-released pair marks this frame's orbit transition. keyPressed gives the
key-down state consumed for the touchpad-orbit modifier. -/
structure FrameInput where
  mouseDelta : Vec2
  scrollEvents : List ScrollEvent
  magnifyEvents : List ℚ
  rotateEvents : List ℚ
  orbitPressed : Bool
  panPressed : Bool
  orbitJustPressed : Bool
  orbitJustReleased : Bool
  keyPressed : Nat → Bool
  pointerOverEgui : Bool

/-- Initialization branch, lines 425-463 of src/lib.rs: derive missing
current values, clamp them, seed the targets, seed or override the
orthographic scale, write the transform, and mark initialized. -/
def initStep (u : UtilModel) (st : PanOrbitCamera) (tf : Transform)
    (proj : Projection) : PanOrbitCamera × Transform × Projection :=
  if st.initialized = true then (st, tf, proj) else
    let abr := u.calculate_from_translation_and_focus tf.translation st.focus
    let alpha := apply_alpha_limits st (st.alpha.getD abr.1)
    let beta := apply_beta_limits st (st.beta.getD abr.2.1)
    let radius := apply_zoom_limits st (st.radius.getD abr.2.2)
    let st1 := { st with
      alpha := some alpha
      beta := some beta
      radius := some radius
      target_alpha := alpha
      target_beta := beta
      target_radius := radius
      target_focus := st.focus }
    let stproj : PanOrbitCamera × Projection :=
      match proj with
      | Projection.orthographic ps aw ah =>
          let scaleVal := st1.scale.getD ps
          let ps2 := apply_zoom_limits st1 scaleVal
          ({ st1 with
              scale := some scaleVal
              target_scale := ps2 },
            Projection.orthographic ps2 aw ah)
      | p => (st1, p)
    let tf2 := u.update_orbit_transform alpha beta radius st.focus
    ({ stproj.1 with initialized := true }, tf2, stproj.2)

/-- Accumulators produced by the input-gathering section. -/
structure Gathered where
  pan : Vec2
  rotation_move : Vec2
  scroll_line : ℚ
  scroll_pixel : ℚ
  orbit_button_changed : Bool

/-- Input gathering, lines 465-521 of src/lib.rs: gated on the pointer not
being over egui, the camera being enabled and this entity being the active
one; accumulates drag, scroll, magnify and rotate events and records whether
the orbit combo transitioned this frame. -/
def gatherInput (active : ActiveCameraData) (input : FrameInput)
    (st : PanOrbitCamera) (entity : Nat) : Gathered :=
  if input.pointerOverEgui = false ∧ st.enabled = true ∧
      active.entity = some entity then
    let pr : Vec2 × Vec2 :=
      if input.orbitPressed then
        (Vec2.zero, input.mouseDelta * st.orbit_sensitivity)
      else if input.panPressed then
        (input.mouseDelta * st.pan_sensitivity, Vec2.zero)
      else (Vec2.zero, Vec2.zero)
    let prl : Vec2 × Vec2 × ℚ := input.scrollEvents.foldl (fun acc ev =>
      match ev.unit with
      | ScrollUnit.line =>
          let direction : ℚ := if st.reversed_zoom then -1 else 1
          (acc.1, acc.2.1, acc.2.2 + ev.y * direction * st.zoom_sensitivity)
      | ScrollUnit.pixel =>
          let orbit := match st.modifier_orbit_touchpad with
            | some m => input.keyPressed m
            | none => false
          if orbit then
            (acc.1, acc.2.1 + Vec2.mk ev.x ev.y * st.orbit_sensitivity, acc.2.2)
          else
            (acc.1 + Vec2.mk ev.x ev.y * st.pan_sensitivity, acc.2.1, acc.2.2))
      (pr.1, pr.2, 0)
    let sp : ℚ := input.magnifyEvents.foldl
      (fun a m => a + m * st.zoom_sensitivity * 2) 0
    let rm : Vec2 := input.rotateEvents.foldl
      (fun (r : Vec2) a => Vec2.mk (r.x + a * st.orbit_sensitivity * 3) r.y)
      prl.2.1
    { pan := prl.1, rotation_move := rm, scroll_line := prl.2.2,
      scroll_pixel := sp,
      orbit_button_changed := input.orbitJustPressed || input.orbitJustReleased }
  else
    { pan := Vec2.zero, rotation_move := Vec2.zero, scroll_line := 0,
      scroll_pixel := 0, orbit_button_changed := false }

/-- Upside-down recomputation, lines 525-530 of src/lib.rs: only on frames
where the orbit combo transitioned; wraps target_beta with the float
remainder and takes the absolute value. -/
def upsideDownStep (changed : Bool) (st : PanOrbitCamera) : PanOrbitCamera :=
  if changed then
    let wrapped_beta := |rustRem st.target_beta TAU|
    { st with is_upside_down :=
        decide (TAU / 4 < wrapped_beta ∧ wrapped_beta < 3 * TAU / 4) }
  else st

/-- Rotation and pan application, lines 532-586 of src/lib.rs: rotation (via
window size) takes precedence over pan (via viewport size); pan probes each
local axis against the focus limits before scaling by the signed magnitude. -/
def movementStep (u : UtilModel) (active : ActiveCameraData)
    (st : PanOrbitCamera) (tf : Transform) (proj : Projection)
    (pan rotation_move : Vec2) : PanOrbitCamera × Bool :=
  if 0 < rotation_move.lengthSquared then
    match active.window_size with
    | some win =>
        let dx0 := rotation_move.x / win.x * PI * 2
        let delta_x := if st.is_upside_down then -dx0 else dx0
        let delta_y := rotation_move.y / win.y * PI
        ({ st with
            target_alpha := st.target_alpha - delta_x
            target_beta := st.target_beta + delta_y }, true)
    | none => (st, false)
  else if 0 < pan.lengthSquared then
    match active.viewport_size with
    | some vp =>
        let pm : Vec2 × ℚ :=
          match proj with
          | Projection.perspective fov aspect =>
              (Vec2.mk (pan.x * (fov * aspect / vp.x)) (pan.y * (fov / vp.y)),
                match st.radius with
                | some r => r
                | none => 1)
          | Projection.orthographic _ aw ah =>
              (Vec2.mk (pan.x * (aw / vp.x)) (pan.y * (ah / vp.y)), 1)
        let pan2 := pm.1
        let right0 := u.normalize_or_zero
          (apply_focus_limits st
            (st.target_focus + tf.right * rustSignum pan2.x) - st.target_focus)
        let up0 := u.normalize_or_zero
          (apply_focus_limits st
            (st.target_focus + tf.up * rustSignum pan2.y) - st.target_focus)
        let rightv := right0 * (-pan2.x * rustSignum pan2.x)
        let upv := up0 * (pan2.y * rustSignum pan2.y)
        let translation := (rightv + upv) * pm.2
        ({ st with target_focus := st.target_focus + translation }, true)
    | none => (st, false)
  else (st, false)

/-- Zoom application, lines 588-608 of src/lib.rs: pick the reference pair by
projection, add the combined geometric delta to the target, and add the
pixel part directly to the clamped current value. -/
def zoomStep (st : PanOrbitCamera) (proj : Projection)
    (scroll_line scroll_pixel : ℚ) : PanOrbitCamera × Bool :=
  if 0 < |scroll_line + scroll_pixel| then
    match proj with
    | Projection.orthographic _ _ _ =>
        let line_delta := -scroll_line * st.target_scale * (1/5)
        let pixel_delta := -scroll_pixel * st.target_scale * (1/5)
        ({ st with
            target_scale := st.target_scale + (line_delta + pixel_delta)
            scale := st.scale.map
              (fun v => apply_zoom_limits st (v + pixel_delta)) }, true)
    | Projection.perspective _ _ =>
        let line_delta := -scroll_line * st.target_radius * (1/5)
        let pixel_delta := -scroll_pixel * st.target_radius * (1/5)
        ({ st with
            target_radius := st.target_radius + (line_delta + pixel_delta)
            radius := st.radius.map
              (fun v => apply_zoom_limits st (v + pixel_delta)) }, true)
  else (st, false)

/-- Constraint application, lines 610-621 of src/lib.rs: always runs; clamps
all targets against configured limits, then hard-clamps target_beta into
plus/minus half pi when upside down is not allowed. -/
def constrainStep (st : PanOrbitCamera) : PanOrbitCamera :=
  let st1 := { st with
    target_alpha := apply_alpha_limits st st.target_alpha
    target_beta := apply_beta_limits st st.target_beta
    target_radius := apply_zoom_limits st st.target_radius
    target_scale := apply_zoom_limits st st.target_scale
    target_focus := apply_focus_limits st st.target_focus }
  if st1.allow_upside_down = false then
    { st1 with target_beta :=
        apply_limits st1.target_beta (some (PI / 2)) (some (-(PI / 2))) }
  else st1

/-- Commit branch, lines 623-685 of src/lib.rs: requires current alpha, beta
and radius to exist; recomputes and writes the transform only when there was
input, a target differs from its current counterpart, or force_update is
set; interpolates each value and clears force_update. -/
def commitStep (u : UtilModel) (st : PanOrbitCamera) (tf : Transform)
    (proj : Projection) (has_moved : Bool) :
    PanOrbitCamera × Transform × Projection :=
  match st.alpha, st.beta, st.radius with
  | some alpha, some beta, some radius =>
      if has_moved = true ∨ st.target_alpha ≠ alpha ∨ st.target_beta ≠ beta ∨
          st.target_radius ≠ radius ∨ st.target_focus ≠ st.focus ∨
          some st.target_scale ≠ st.scale ∨ st.force_update = true then
        let new_alpha := lerp_and_snap_f32 alpha st.target_alpha st.orbit_smoothness
        let new_beta := lerp_and_snap_f32 beta st.target_beta st.orbit_smoothness
        let new_radius := lerp_and_snap_f32 radius st.target_radius st.zoom_smoothness
        let new_scale := lerp_and_snap_f32 (st.scale.getD st.target_scale)
          st.target_scale st.zoom_smoothness
        let new_focus := lerp_and_snap_vec3 st.focus st.target_focus st.pan_smoothness
        let proj2 := match proj with
          | Projection.orthographic _ aw ah =>
              Projection.orthographic new_scale aw ah
          | p => p
        let tf2 := u.update_orbit_transform new_alpha new_beta new_radius new_focus
        ({ st with
            alpha := some new_alpha
            beta := some new_beta
            radius := some new_radius
            scale := some new_scale
            focus := new_focus
            force_update := false }, tf2, proj2)
      else (st, tf, proj)
  | _, _, _ => (st, tf, proj)

/-- The state after constraints plus the has_moved flag: initialization,
input gathering, upside-down recomputation, movement, zoom, constraints. -/
def frameMid (u : UtilModel) (active : ActiveCameraData) (input : FrameInput)
    (entity : Nat) (st : PanOrbitCamera) (tf : Transform) (proj : Projection) :
    PanOrbitCamera × Bool :=
  let itp := initStep u st tf proj
  let g := gatherInput active input itp.1 entity
  let st2 := upsideDownStep g.orbit_button_changed itp.1
  let mv := movementStep u active st2 itp.2.1 itp.2.2 g.pan g.rotation_move
  let zm := zoomStep mv.1 itp.2.2 g.scroll_line g.scroll_pixel
  (constrainStep zm.1, mv.2 || zm.2)

/-- One full run of the pan_orbit_camera system for one camera instance,
lines 359-686 of src/lib.rs. -/
def pan_orbit_camera (u : UtilModel) (active : ActiveCameraData)
    (input : FrameInput) (entity : Nat) (st : PanOrbitCamera)
    (tf : Transform) (proj : Projection) :
    PanOrbitCamera × Transform × Projection :=
  let itp := initStep u st tf proj
  let m := frameMid u active input entity st tf proj
  commitStep u m.1 itp.2.1 itp.2.2 m.2

/-- One camera entry as scanned by the active-viewport resolver: identity,
draw order, whether it renders to a window, the cursor position in that
window, the logical viewport rectangle and size, the window size, and the
per-camera just-pressed input booleans (the util button helpers, modelled
from the spec). -/
structure ResolverCamera where
  entity : Nat
  order : ℤ
  windowTarget : Bool
  cursorPos : Option Vec2
  viewportRect : Option (Vec2 × Vec2)
  viewportSize : Option Vec2
  windowSize : Vec2
  orbitJustPressed : Bool
  panJustPressed : Bool

/-- Fold step over one camera of the resolver loop, lines 309-351 of
src/lib.rs: candidate only when input just activated, the camera renders to
a window, the cursor is strictly inside the viewport rectangle and the draw
order is at least the best seen so far. -/
def resolverScan (scrollNonEmpty : Bool)
    (acc : ActiveCameraData × ℤ × Bool) (cam : ResolverCamera) :
    ActiveCameraData × ℤ × Bool :=
  let input_just_activated :=
    cam.orbitJustPressed || cam.panJustPressed || scrollNonEmpty
  if input_just_activated then
    if cam.windowTarget then
      match cam.cursorPos with
      | some cp =>
          match cam.viewportRect with
          | some r =>
              if (r.1.x < cp.x ∧ cp.x < r.2.x ∧ r.1.y < cp.y ∧ cp.y < r.2.y) ∧
                  acc.2.1 ≤ cam.order then
                (⟨some cam.entity, cam.viewportSize, some cam.windowSize,
                    false⟩, cam.order, true)
              else (acc.1, acc.2.1, true)
          | none => (acc.1, acc.2.1, true)
      | none => (acc.1, acc.2.1, true)
    else (acc.1, acc.2.1, true)
  else acc

/-- The active_viewport_data system, lines 296-356 of src/lib.rs: scan all
cameras starting from the default record and best order 0; replace the
shared record only when some relevant input occurred this frame. -/
def active_viewport_data (scrollNonEmpty : Bool) (cams : List ResolverCamera)
    (active : ActiveCameraData) : ActiveCameraData :=
  let r := cams.foldl (resolverScan scrollNonEmpty)
    (ActiveCameraData.default, 0, false)
  if r.2.2 then r.1 else active

/-! Helper lemmas about the clamp primitives. -/

theorem apply_limits_le_upper (v : ℚ) (u : ℚ) (lo : Option ℚ) :
    apply_limits v (some u) lo ≤ u := by
  cases lo <;> simp [apply_limits]

theorem apply_limits_mem (v l u : ℚ) (h : l ≤ u) :
    l ≤ apply_limits v (some u) (some l) ∧ apply_limits v (some u) (some l) ≤ u := by
  constructor
  · exact le_min (le_max_right v l) h
  · exact min_le_right _ _

theorem apply_zoom_limits_ge (st : PanOrbitCamera) (z : ℚ) :
    1/20 ≤ apply_zoom_limits st z :=
  le_max_right _ _

/-! Field-preservation lemmas for each pipeline step. -/

@[simp] theorem initStep_fst_initialized (u : UtilModel) (st : PanOrbitCamera)
    (tf : Transform) (proj : Projection) :
    ((initStep u st tf proj).1).initialized = true := by
  cases proj <;> by_cases h : st.initialized = true <;> simp [initStep, h]

@[simp] theorem initStep_fxu (u : UtilModel) (st : PanOrbitCamera)
    (tf : Transform) (proj : Projection) :
    ((initStep u st tf proj).1).focus_x_upper_limit = st.focus_x_upper_limit := by
  cases proj <;> by_cases h : st.initialized = true <;> simp [initStep, h]

@[simp] theorem initStep_fyu (u : UtilModel) (st : PanOrbitCamera)
    (tf : Transform) (proj : Projection) :
    ((initStep u st tf proj).1).focus_y_upper_limit = st.focus_y_upper_limit := by
  cases proj <;> by_cases h : st.initialized = true <;> simp [initStep, h]

@[simp] theorem initStep_fzu (u : UtilModel) (st : PanOrbitCamera)
    (tf : Transform) (proj : Projection) :
    ((initStep u st tf proj).1).focus_z_upper_limit = st.focus_z_upper_limit := by
  cases proj <;> by_cases h : st.initialized = true <;> simp [initStep, h]

@[simp] theorem initStep_allow (u : UtilModel) (st : PanOrbitCamera)
    (tf : Transform) (proj : Projection) :
    ((initStep u st tf proj).1).allow_upside_down = st.allow_upside_down := by
  cases proj <;> by_cases h : st.initialized = true <;> simp [initStep, h]

@[simp] theorem initStep_upside (u : UtilModel) (st : PanOrbitCamera)
    (tf : Transform) (proj : Projection) :
    ((initStep u st tf proj).1).is_upside_down = st.is_upside_down := by
  cases proj <;> by_cases h : st.initialized = true <;> simp [initStep, h]

theorem initStep_alpha_isSome_of_uninit (u : UtilModel) (st : PanOrbitCamera)
    (tf : Transform) (proj : Projection) (h : st.initialized = false) :
    ((initStep u st tf proj).1).alpha.isSome = true := by
  cases proj <;> simp [initStep, h]

theorem initStep_beta_isSome_of_uninit (u : UtilModel) (st : PanOrbitCamera)
    (tf : Transform) (proj : Projection) (h : st.initialized = false) :
    ((initStep u st tf proj).1).beta.isSome = true := by
  cases proj <;> simp [initStep, h]

theorem initStep_radius_isSome_of_uninit (u : UtilModel) (st : PanOrbitCamera)
    (tf : Transform) (proj : Projection) (h : st.initialized = false) :
    ((initStep u st tf proj).1).radius.isSome = true := by
  cases proj <;> simp [initStep, h]

theorem initStep_persp_scale (u : UtilModel) (st : PanOrbitCamera)
    (tf : Transform) (fov aspect : ℚ) :
    ((initStep u st tf (Projection.perspective fov aspect)).1).scale = st.scale := by
  by_cases h : st.initialized = true <;> simp [initStep, h]

theorem initStep_persp_proj (u : UtilModel) (st : PanOrbitCamera)
    (tf : Transform) (fov aspect : ℚ) :
    (initStep u st tf (Projection.perspective fov aspect)).2.2 =
      Projection.perspective fov aspect := by
  by_cases h : st.initialized = true <;> simp [initStep, h]

theorem initStep_ortho_scale_isSome (u : UtilModel) (st : PanOrbitCamera)
    (tf : Transform) (s aw ah : ℚ) (h : st.initialized = false) :
    ((initStep u st tf (Projection.orthographic s aw ah)).1).scale.isSome = true := by
  simp [initStep, h]

theorem initStep_ortho_proj (u : UtilModel) (st : PanOrbitCamera)
    (tf : Transform) (s aw ah : ℚ) :
    ∃ s2, (initStep u st tf (Projection.orthographic s aw ah)).2.2 =
      Projection.orthographic s2 aw ah := by
  by_cases h : st.initialized = true <;> simp [initStep, h]

theorem initStep_of_initialized (u : UtilModel) (st : PanOrbitCamera)
    (tf : Transform) (proj : Projection) (h : st.initialized = true) :
    initStep u st tf proj = (st, tf, proj) := by
  simp [initStep, h]

@[simp] theorem upsideDownStep_fxu (c : Bool) (st : PanOrbitCamera) :
    (upsideDownStep c st).focus_x_upper_limit = st.focus_x_upper_limit := by
  unfold upsideDownStep; split <;> rfl

@[simp] theorem upsideDownStep_fyu (c : Bool) (st : PanOrbitCamera) :
    (upsideDownStep c st).focus_y_upper_limit = st.focus_y_upper_limit := by
  unfold upsideDownStep; split <;> rfl

@[simp] theorem upsideDownStep_fzu (c : Bool) (st : PanOrbitCamera) :
    (upsideDownStep c st).focus_z_upper_limit = st.focus_z_upper_limit := by
  unfold upsideDownStep; split <;> rfl

@[simp] theorem upsideDownStep_allow (c : Bool) (st : PanOrbitCamera) :
    (upsideDownStep c st).allow_upside_down = st.allow_upside_down := by
  unfold upsideDownStep; split <;> rfl

@[simp] theorem upsideDownStep_alpha (c : Bool) (st : PanOrbitCamera) :
    (upsideDownStep c st).alpha = st.alpha := by
  unfold upsideDownStep; split <;> rfl

@[simp] theorem upsideDownStep_beta (c : Bool) (st : PanOrbitCamera) :
    (upsideDownStep c st).beta = st.beta := by
  unfold upsideDownStep; split <;> rfl

@[simp] theorem upsideDownStep_radius (c : Bool) (st : PanOrbitCamera) :
    (upsideDownStep c st).radius = st.radius := by
  unfold upsideDownStep; split <;> rfl

@[simp] theorem upsideDownStep_scale (c : Bool) (st : PanOrbitCamera) :
    (upsideDownStep c st).scale = st.scale := by
  unfold upsideDownStep; split <;> rfl

@[simp] theorem upsideDownStep_focus (c : Bool) (st : PanOrbitCamera) :
    (upsideDownStep c st).focus = st.focus := by
  unfold upsideDownStep; split <;> rfl

@[simp] theorem upsideDownStep_force_update (c : Bool) (st : PanOrbitCamera) :
    (upsideDownStep c st).force_update = st.force_update := by
  unfold upsideDownStep; split <;> rfl

@[simp] theorem upsideDownStep_initialized (c : Bool) (st : PanOrbitCamera) :
    (upsideDownStep c st).initialized = st.initialized := by
  unfold upsideDownStep; split <;> rfl

theorem upsideDownStep_is_upside_down (c : Bool) (st : PanOrbitCamera) :
    (upsideDownStep c st).is_upside_down =
      if c then
        decide (TAU / 4 < |rustRem st.target_beta TAU| ∧
          |rustRem st.target_beta TAU| < 3 * TAU / 4)
      else st.is_upside_down := by
  unfold upsideDownStep; split <;> simp_all

@[simp] theorem movementStep_fxu (u : UtilModel) (active : ActiveCameraData)
    (st : PanOrbitCamera) (tf : Transform) (proj : Projection) (p r : Vec2) :
    ((movementStep u active st tf proj p r).1).focus_x_upper_limit =
      st.focus_x_upper_limit := by
  unfold movementStep
  repeat' split
  all_goals rfl

@[simp] theorem movementStep_fyu (u : UtilModel) (active : ActiveCameraData)
    (st : PanOrbitCamera) (tf : Transform) (proj : Projection) (p r : Vec2) :
    ((movementStep u active st tf proj p r).1).focus_y_upper_limit =
      st.focus_y_upper_limit := by
  unfold movementStep
  repeat' split
  all_goals rfl

@[simp] theorem movementStep_fzu (u : UtilModel) (active : ActiveCameraData)
    (st : PanOrbitCamera) (tf : Transform) (proj : Projection) (p r : Vec2) :
    ((movementStep u active st tf proj p r).1).focus_z_upper_limit =
      st.focus_z_upper_limit := by
  unfold movementStep
  repeat' split
  all_goals rfl

@[simp] theorem movementStep_allow (u : UtilModel) (active : ActiveCameraData)
    (st : PanOrbitCamera) (tf : Transform) (proj : Projection) (p r : Vec2) :
    ((movementStep u active st tf proj p r).1).allow_upside_down =
      st.allow_upside_down := by
  unfold movementStep
  repeat' split
  all_goals rfl

@[simp] theorem movementStep_upside (u : UtilModel) (active : ActiveCameraData)
    (st : PanOrbitCamera) (tf : Transform) (proj : Projection) (p r : Vec2) :
    ((movementStep u active st tf proj p r).1).is_upside_down =
      st.is_upside_down := by
  unfold movementStep
  repeat' split
  all_goals rfl

@[simp] theorem movementStep_alpha (u : UtilModel) (active : ActiveCameraData)
    (st : PanOrbitCamera) (tf : Transform) (proj : Projection) (p r : Vec2) :
    ((movementStep u active st tf proj p r).1).alpha = st.alpha := by
  unfold movementStep
  repeat' split
  all_goals rfl

@[simp] theorem movementStep_beta (u : UtilModel) (active : ActiveCameraData)
    (st : PanOrbitCamera) (tf : Transform) (proj : Projection) (p r : Vec2) :
    ((movementStep u active st tf proj p r).1).beta = st.beta := by
  unfold movementStep
  repeat' split
  all_goals rfl

@[simp] theorem movementStep_radius (u : UtilModel) (active : ActiveCameraData)
    (st : PanOrbitCamera) (tf : Transform) (proj : Projection) (p r : Vec2) :
    ((movementStep u active st tf proj p r).1).radius = st.radius := by
  unfold movementStep
  repeat' split
  all_goals rfl

@[simp] theorem movementStep_scale (u : UtilModel) (active : ActiveCameraData)
    (st : PanOrbitCamera) (tf : Transform) (proj : Projection) (p r : Vec2) :
    ((movementStep u active st tf proj p r).1).scale = st.scale := by
  unfold movementStep
  repeat' split
  all_goals rfl

@[simp] theorem movementStep_focus (u : UtilModel) (active : ActiveCameraData)
    (st : PanOrbitCamera) (tf : Transform) (proj : Projection) (p r : Vec2) :
    ((movementStep u active st tf proj p r).1).focus = st.focus := by
  unfold movementStep
  repeat' split
  all_goals rfl

@[simp] theorem movementStep_force_update (u : UtilModel) (active : ActiveCameraData)
    (st : PanOrbitCamera) (tf : Transform) (proj : Projection) (p r : Vec2) :
    ((movementStep u active st tf proj p r).1).force_update = st.force_update := by
  unfold movementStep
  repeat' split
  all_goals rfl

@[simp] theorem movementStep_initialized (u : UtilModel) (active : ActiveCameraData)
    (st : PanOrbitCamera) (tf : Transform) (proj : Projection) (p r : Vec2) :
    ((movementStep u active st tf proj p r).1).initialized = st.initialized := by
  unfold movementStep
  repeat' split
  all_goals rfl

theorem movementStep_not_moved (u : UtilModel) (active : ActiveCameraData)
    (st : PanOrbitCamera) (tf : Transform) (proj : Projection) (p r : Vec2)
    (h : (movementStep u active st tf proj p r).2 = false) :
    (movementStep u active st tf proj p r).1 = st := by
  unfold movementStep at h ⊢
  rcases hw : active.window_size with _ | win <;>
    rcases hv : active.viewport_size with _ | vp <;>
      by_cases h1 : 0 < r.lengthSquared <;>
        by_cases h2 : 0 < p.lengthSquared <;>
          simp [h1, h2, hw, hv] at h ⊢

@[simp] theorem zoomStep_fxu (st : PanOrbitCamera) (proj : Projection) (sl sp : ℚ) :
    ((zoomStep st proj sl sp).1).focus_x_upper_limit = st.focus_x_upper_limit := by
  unfold zoomStep
  repeat' split
  all_goals rfl

@[simp] theorem zoomStep_fyu (st : PanOrbitCamera) (proj : Projection) (sl sp : ℚ) :
    ((zoomStep st proj sl sp).1).focus_y_upper_limit = st.focus_y_upper_limit := by
  unfold zoomStep
  repeat' split
  all_goals rfl

@[simp] theorem zoomStep_fzu (st : PanOrbitCamera) (proj : Projection) (sl sp : ℚ) :
    ((zoomStep st proj sl sp).1).focus_z_upper_limit = st.focus_z_upper_limit := by
  unfold zoomStep
  repeat' split
  all_goals rfl

@[simp] theorem zoomStep_allow (st : PanOrbitCamera) (proj : Projection) (sl sp : ℚ) :
    ((zoomStep st proj sl sp).1).allow_upside_down = st.allow_upside_down := by
  unfold zoomStep
  repeat' split
  all_goals rfl

@[simp] theorem zoomStep_upside (st : PanOrbitCamera) (proj : Projection) (sl sp : ℚ) :
    ((zoomStep st proj sl sp).1).is_upside_down = st.is_upside_down := by
  unfold zoomStep
  repeat' split
  all_goals rfl

@[simp] theorem zoomStep_alpha (st : PanOrbitCamera) (proj : Projection) (sl sp : ℚ) :
    ((zoomStep st proj sl sp).1).alpha = st.alpha := by
  unfold zoomStep
  repeat' split
  all_goals rfl

@[simp] theorem zoomStep_beta (st : PanOrbitCamera) (proj : Projection) (sl sp : ℚ) :
    ((zoomStep st proj sl sp).1).beta = st.beta := by
  unfold zoomStep
  repeat' split
  all_goals rfl

@[simp] theorem zoomStep_focus (st : PanOrbitCamera) (proj : Projection) (sl sp : ℚ) :
    ((zoomStep st proj sl sp).1).focus = st.focus := by
  unfold zoomStep
  repeat' split
  all_goals rfl

@[simp] theorem zoomStep_force_update (st : PanOrbitCamera) (proj : Projection) (sl sp : ℚ) :
    ((zoomStep st proj sl sp).1).force_update = st.force_update := by
  unfold zoomStep
  repeat' split
  all_goals rfl

@[simp] theorem zoomStep_initialized (st : PanOrbitCamera) (proj : Projection) (sl sp : ℚ) :
    ((zoomStep st proj sl sp).1).initialized = st.initialized := by
  unfold zoomStep
  repeat' split
  all_goals rfl

@[simp] theorem zoomStep_radius_isSome (st : PanOrbitCamera) (proj : Projection) (sl sp : ℚ) :
    ((zoomStep st proj sl sp).1).radius.isSome = st.radius.isSome := by
  unfold zoomStep
  repeat' split
  all_goals simp

@[simp] theorem zoomStep_scale_isSome (st : PanOrbitCamera) (proj : Projection) (sl sp : ℚ) :
    ((zoomStep st proj sl sp).1).scale.isSome = st.scale.isSome := by
  unfold zoomStep
  repeat' split
  all_goals simp

theorem zoomStep_persp_scale (st : PanOrbitCamera) (fov aspect sl sp : ℚ) :
    ((zoomStep st (Projection.perspective fov aspect) sl sp).1).scale = st.scale := by
  unfold zoomStep
  split
  all_goals rfl

theorem zoomStep_not_moved (st : PanOrbitCamera) (proj : Projection) (sl sp : ℚ)
    (h : (zoomStep st proj sl sp).2 = false) :
    (zoomStep st proj sl sp).1 = st := by
  unfold zoomStep at h ⊢
  by_cases h1 : 0 < |sl + sp|
  · cases proj <;> simp [h1] at h
  · simp [h1]

@[simp] theorem constrainStep_alpha (st : PanOrbitCamera) :
    (constrainStep st).alpha = st.alpha := by
  unfold constrainStep
  by_cases h : st.allow_upside_down = false <;> simp [h]

@[simp] theorem constrainStep_beta (st : PanOrbitCamera) :
    (constrainStep st).beta = st.beta := by
  unfold constrainStep
  by_cases h : st.allow_upside_down = false <;> simp [h]

@[simp] theorem constrainStep_radius (st : PanOrbitCamera) :
    (constrainStep st).radius = st.radius := by
  unfold constrainStep
  by_cases h : st.allow_upside_down = false <;> simp [h]

@[simp] theorem constrainStep_scale (st : PanOrbitCamera) :
    (constrainStep st).scale = st.scale := by
  unfold constrainStep
  by_cases h : st.allow_upside_down = false <;> simp [h]

@[simp] theorem constrainStep_focus (st : PanOrbitCamera) :
    (constrainStep st).focus = st.focus := by
  unfold constrainStep
  by_cases h : st.allow_upside_down = false <;> simp [h]

@[simp] theorem constrainStep_force_update (st : PanOrbitCamera) :
    (constrainStep st).force_update = st.force_update := by
  unfold constrainStep
  by_cases h : st.allow_upside_down = false <;> simp [h]

@[simp] theorem constrainStep_upside (st : PanOrbitCamera) :
    (constrainStep st).is_upside_down = st.is_upside_down := by
  unfold constrainStep
  by_cases h : st.allow_upside_down = false <;> simp [h]

@[simp] theorem constrainStep_initialized (st : PanOrbitCamera) :
    (constrainStep st).initialized = st.initialized := by
  unfold constrainStep
  by_cases h : st.allow_upside_down = false <;> simp [h]

@[simp] theorem constrainStep_target_radius (st : PanOrbitCamera) :
    (constrainStep st).target_radius = apply_zoom_limits st st.target_radius := by
  unfold constrainStep
  by_cases h : st.allow_upside_down = false <;> simp [h]

@[simp] theorem constrainStep_target_scale (st : PanOrbitCamera) :
    (constrainStep st).target_scale = apply_zoom_limits st st.target_scale := by
  unfold constrainStep
  by_cases h : st.allow_upside_down = false <;> simp [h]

@[simp] theorem constrainStep_target_focus (st : PanOrbitCamera) :
    (constrainStep st).target_focus = apply_focus_limits st st.target_focus := by
  unfold constrainStep
  by_cases h : st.allow_upside_down = false <;> simp [h]

theorem constrainStep_target_beta_of_not_allowed (st : PanOrbitCamera)
    (h : st.allow_upside_down = false) :
    (constrainStep st).target_beta =
      apply_limits (apply_beta_limits st st.target_beta)
        (some (PI / 2)) (some (-(PI / 2))) := by
  unfold constrainStep
  simp [h]

@[simp] theorem commitStep_target_alpha (u : UtilModel) (st : PanOrbitCamera)
    (tf : Transform) (proj : Projection) (m : Bool) :
    ((commitStep u st tf proj m).1).target_alpha = st.target_alpha := by
  unfold commitStep
  repeat' split
  all_goals rfl

@[simp] theorem commitStep_target_beta (u : UtilModel) (st : PanOrbitCamera)
    (tf : Transform) (proj : Projection) (m : Bool) :
    ((commitStep u st tf proj m).1).target_beta = st.target_beta := by
  unfold commitStep
  repeat' split
  all_goals rfl

@[simp] theorem commitStep_target_radius (u : UtilModel) (st : PanOrbitCamera)
    (tf : Transform) (proj : Projection) (m : Bool) :
    ((commitStep u st tf proj m).1).target_radius = st.target_radius := by
  unfold commitStep
  repeat' split
  all_goals rfl

@[simp] theorem commitStep_target_scale (u : UtilModel) (st : PanOrbitCamera)
    (tf : Transform) (proj : Projection) (m : Bool) :
    ((commitStep u st tf proj m).1).target_scale = st.target_scale := by
  unfold commitStep
  repeat' split
  all_goals rfl

@[simp] theorem commitStep_target_focus (u : UtilModel) (st : PanOrbitCamera)
    (tf : Transform) (proj : Projection) (m : Bool) :
    ((commitStep u st tf proj m).1).target_focus = st.target_focus := by
  unfold commitStep
  repeat' split
  all_goals rfl

@[simp] theorem commitStep_upside (u : UtilModel) (st : PanOrbitCamera)
    (tf : Transform) (proj : Projection) (m : Bool) :
    ((commitStep u st tf proj m).1).is_upside_down = st.is_upside_down := by
  unfold commitStep
  repeat' split
  all_goals rfl

@[simp] theorem commitStep_initialized (u : UtilModel) (st : PanOrbitCamera)
    (tf : Transform) (proj : Projection) (m : Bool) :
    ((commitStep u st tf proj m).1).initialized = st.initialized := by
  unfold commitStep
  repeat' split
  all_goals rfl

/-- The commit guard of lines 628-636 as a proposition about the state at
line 625 and the has_moved flag: new input this frame, some target differing
from its current counterpart, or force_update. -/
def commitCond (st : PanOrbitCamera) (has_moved : Bool) : Prop :=
  has_moved = true ∨ st.alpha ≠ some st.target_alpha ∨
  st.beta ≠ some st.target_beta ∨ st.radius ≠ some st.target_radius ∨
  st.target_focus ≠ st.focus ∨ some st.target_scale ≠ st.scale ∨
  st.force_update = true

instance (st : PanOrbitCamera) (m : Bool) : Decidable (commitCond st m) := by
  unfold commitCond
  infer_instance

theorem commitStep_eq_of_not_cond (u : UtilModel) (st : PanOrbitCamera)
    (tf : Transform) (proj : Projection) (m : Bool) (a b r : ℚ)
    (ha : st.alpha = some a) (hb : st.beta = some b) (hr : st.radius = some r)
    (h : ¬ commitCond st m) :
    commitStep u st tf proj m = (st, tf, proj) := by
  unfold commitCond at h
  push_neg at h
  obtain ⟨h1, h2, h3, h4, h5, h6, h7⟩ := h
  rw [ha] at h2
  rw [hb] at h3
  rw [hr] at h4
  simp only [Option.some.injEq] at h2 h3 h4
  unfold commitStep
  simp only [ha, hb, hr]
  rw [if_neg]
  push_neg
  exact ⟨h1, h2.symm, h3.symm, h4.symm, h5, h6, h7⟩

theorem commitStep_force_update_of_cond (u : UtilModel) (st : PanOrbitCamera)
    (tf : Transform) (proj : Projection) (m : Bool) (a b r : ℚ)
    (ha : st.alpha = some a) (hb : st.beta = some b) (hr : st.radius = some r)
    (h : commitCond st m) :
    ((commitStep u st tf proj m).1).force_update = false := by
  unfold commitCond at h
  rw [ha] at h
  rw [hb] at h
  rw [hr] at h
  unfold commitStep
  simp only [ha, hb, hr]
  rw [if_pos]
  rcases h with h | h | h | h | h | h | h
  · exact Or.inl h
  · exact Or.inr (Or.inl fun hx => h (by rw [hx]))
  · exact Or.inr (Or.inr (Or.inl fun hx => h (by rw [hx])))
  · exact Or.inr (Or.inr (Or.inr (Or.inl fun hx => h (by rw [hx]))))
  · exact Or.inr (Or.inr (Or.inr (Or.inr (Or.inl h))))
  · exact Or.inr (Or.inr (Or.inr (Or.inr (Or.inr (Or.inl h)))))
  · exact Or.inr (Or.inr (Or.inr (Or.inr (Or.inr (Or.inr h)))))

theorem commitStep_of_none (u : UtilModel) (st : PanOrbitCamera)
    (tf : Transform) (proj : Projection) (m : Bool)
    (h : st.alpha = none ∨ st.beta = none ∨ st.radius = none) :
    commitStep u st tf proj m = (st, tf, proj) := by
  unfold commitStep
  rcases ha : st.alpha with _ | a
  · rfl
  · rcases hb : st.beta with _ | b
    · rfl
    · rcases hr : st.radius with _ | r
      · rfl
      · rw [ha, hb, hr] at h
        simp at h

theorem commitStep_isSome (u : UtilModel) (st : PanOrbitCamera)
    (tf : Transform) (proj : Projection) (m : Bool)
    (ha : st.alpha.isSome = true) (hb : st.beta.isSome = true)
    (hr : st.radius.isSome = true) (hs : st.scale.isSome = true) :
    ((commitStep u st tf proj m).1).alpha.isSome = true ∧
    ((commitStep u st tf proj m).1).beta.isSome = true ∧
    ((commitStep u st tf proj m).1).radius.isSome = true ∧
    ((commitStep u st tf proj m).1).scale.isSome = true := by
  obtain ⟨a, ha⟩ := Option.isSome_iff_exists.mp ha
  obtain ⟨b, hb⟩ := Option.isSome_iff_exists.mp hb
  obtain ⟨r, hr⟩ := Option.isSome_iff_exists.mp hr
  unfold commitStep
  simp only [ha, hb, hr]
  split
  · simp
  · simp [ha, hb, hr, hs]

theorem commitStep_writes_scale (u : UtilModel) (st : PanOrbitCamera)
    (tf : Transform) (proj : Projection) (m : Bool)
    (ha : st.alpha.isSome = true) (hb : st.beta.isSome = true)
    (hr : st.radius.isSome = true) (hs : st.scale = none) :
    ((commitStep u st tf proj m).1).scale.isSome = true := by
  obtain ⟨a, ha⟩ := Option.isSome_iff_exists.mp ha
  obtain ⟨b, hb⟩ := Option.isSome_iff_exists.mp hb
  obtain ⟨r, hr⟩ := Option.isSome_iff_exists.mp hr
  unfold commitStep
  simp only [ha, hb, hr]
  rw [if_pos]
  · simp
  · refine Or.inr (Or.inr (Or.inr (Or.inr (Or.inr (Or.inl ?_)))))
    rw [hs]
    simp

theorem gatherInput_obc (active : ActiveCameraData) (input : FrameInput)
    (st : PanOrbitCamera) (entity : Nat) :
    (gatherInput active input st entity).orbit_button_changed =
      if input.pointerOverEgui = false ∧ st.enabled = true ∧
          active.entity = some entity
      then input.orbitJustPressed || input.orbitJustReleased
      else false := by
  by_cases h : input.pointerOverEgui = false ∧ st.enabled = true ∧
      active.entity = some entity <;> simp [gatherInput, h]

theorem TAU_pos : 0 < TAU := by norm_num [TAU]

theorem TAU_div_four : TAU / 4 = PI / 2 := by norm_num [TAU, PI]

theorem TAU_three_quarters : 3 * TAU / 4 = 3 * PI / 2 := by norm_num [TAU, PI]

/-- Equivalence between the code's wrap (absolute value of the float
remainder) and the spec's wrap (mathematical modulo into the interval from 0
to the modulus), as tests for the strictly-inside-the-middle-half window:
both report the same answer for any positive modulus. -/
theorem abs_rustRem_window_iff (x t : ℚ) (ht : 0 < t) :
    (t / 4 < |rustRem x t| ∧ |rustRem x t| < 3 * t / 4) ↔
    (t / 4 < qmod x t ∧ qmod x t < 3 * t / 4) := by
  have htne : t ≠ 0 := ne_of_gt ht
  have hx : x = x / t * t := (div_mul_cancel₀ x htne).symm
  by_cases h0 : 0 ≤ x / t
  · have h1 : rustRem x t = qmod x t := by
      unfold rustRem qmod rustTrunc
      rw [if_pos h0]
    have hfl : ((⌊x / t⌋ : ℤ) : ℚ) ≤ x / t := Int.floor_le _
    have h2 : 0 ≤ qmod x t := by
      unfold qmod
      nlinarith [mul_nonneg (le_of_lt ht) (sub_nonneg.mpr hfl)]
    rw [h1, abs_of_nonneg h2]
  · push_neg at h0
    set q := x / t with hqdef
    have hm1 : ((⌊-q⌋ : ℤ) : ℚ) ≤ -q := Int.floor_le _
    have hm2 : -q < ((⌊-q⌋ : ℤ) : ℚ) + 1 := Int.lt_floor_add_one _
    set m : ℤ := ⌊-q⌋ with hmdef
    have hrr : rustRem x t = (q + (m : ℚ)) * t := by
      unfold rustRem rustTrunc
      rw [← hqdef, if_neg (not_le.mpr h0), ← hmdef]
      push_cast
      rw [hx]
      ring
    rcases eq_or_lt_of_le hm1 with he | hlt
    · have hq : q = -(m : ℚ) := by linarith
      have hfq : ⌊q⌋ = -m := by
        rw [hq]
        exact_mod_cast Int.floor_intCast (-m)
      have hqm : qmod x t = 0 := by
        unfold qmod
        rw [← hqdef, hfq]
        push_cast
        rw [hx, hq]
        ring
      have hr0 : rustRem x t = 0 := by
        rw [hrr, hq]
        ring
      rw [hqm, hr0, abs_zero]
    · have hfq : ⌊q⌋ = -(m + 1) := by
        rw [Int.floor_eq_iff]
        constructor
        · push_cast
          linarith
        · push_cast
          linarith
      have hqm : qmod x t = (q + (m : ℚ) + 1) * t := by
        unfold qmod
        rw [← hqdef, hfq]
        push_cast
        rw [hx]
        ring
      have hrneg : rustRem x t < 0 := by
        rw [hrr]
        have hq0 : q + (m : ℚ) < 0 := by linarith
        nlinarith
      rw [abs_of_neg hrneg, hrr, hqm]
      constructor
      · rintro ⟨u1, u2⟩
        constructor <;> nlinarith
      · rintro ⟨u1, u2⟩
        constructor <;> nlinarith

@[simp] theorem apply_focus_limits_x (st : PanOrbitCamera) (v : Vec3) :
    (apply_focus_limits st v).x =
      apply_limits v.x st.focus_x_upper_limit st.focus_x_lower_limit := rfl

@[simp] theorem apply_focus_limits_y (st : PanOrbitCamera) (v : Vec3) :
    (apply_focus_limits st v).y =
      apply_limits v.y st.focus_y_upper_limit st.focus_y_lower_limit := rfl

@[simp] theorem apply_focus_limits_z (st : PanOrbitCamera) (v : Vec3) :
    (apply_focus_limits st v).z =
      apply_limits v.z st.focus_z_upper_limit st.focus_z_lower_limit := rfl

@[simp] theorem commitStep_alpha_isSome (u : UtilModel) (st : PanOrbitCamera)
    (tf : Transform) (proj : Projection) (m : Bool) :
    ((commitStep u st tf proj m).1).alpha.isSome = st.alpha.isSome := by
  unfold commitStep
  repeat' split
  all_goals simp_all

@[simp] theorem commitStep_beta_isSome (u : UtilModel) (st : PanOrbitCamera)
    (tf : Transform) (proj : Projection) (m : Bool) :
    ((commitStep u st tf proj m).1).beta.isSome = st.beta.isSome := by
  unfold commitStep
  repeat' split
  all_goals simp_all

@[simp] theorem commitStep_radius_isSome (u : UtilModel) (st : PanOrbitCamera)
    (tf : Transform) (proj : Projection) (m : Bool) :
    ((commitStep u st tf proj m).1).radius.isSome = st.radius.isSome := by
  unfold commitStep
  repeat' split
  all_goals simp_all

theorem commitStep_scale_isSome_of (u : UtilModel) (st : PanOrbitCamera)
    (tf : Transform) (proj : Projection) (m : Bool)
    (h : st.scale.isSome = true) :
    ((commitStep u st tf proj m).1).scale.isSome = true := by
  unfold commitStep
  repeat' split
  all_goals simp_all

/-- C1: if a focus axis upper limit is configured, then after a full frame of
the orbit update engine the target focus never exceeds that limit on that
axis, for every camera state, transform, projection and input - in
particular for arbitrarily large single-frame pan deltas, whose contribution
to target_focus is clamped per axis by the constraint step after the pan
step probed each axis direction against the same limits. -/
theorem c1_focus_axis_upper_limits (u : UtilModel) (active : ActiveCameraData)
    (input : FrameInput) (entity : Nat) (st : PanOrbitCamera) (tf : Transform)
    (proj : Projection) :
    (∀ ux, st.focus_x_upper_limit = some ux →
      ((pan_orbit_camera u active input entity st tf proj).1).target_focus.x ≤ ux) ∧
    (∀ uy, st.focus_y_upper_limit = some uy →
      ((pan_orbit_camera u active input entity st tf proj).1).target_focus.y ≤ uy) ∧
    (∀ uz, st.focus_z_upper_limit = some uz →
      ((pan_orbit_camera u active input entity st tf proj).1).target_focus.z ≤ uz) := by
  refine ⟨fun ux hx => ?_, fun uy hy => ?_, fun uz hz => ?_⟩
  · simp only [pan_orbit_camera, frameMid, commitStep_target_focus,
      constrainStep_target_focus, apply_focus_limits_x, zoomStep_fxu,
      movementStep_fxu, upsideDownStep_fxu, initStep_fxu, hx]
    exact apply_limits_le_upper _ _ _
  · simp only [pan_orbit_camera, frameMid, commitStep_target_focus,
      constrainStep_target_focus, apply_focus_limits_y, zoomStep_fyu,
      movementStep_fyu, upsideDownStep_fyu, initStep_fyu, hy]
    exact apply_limits_le_upper _ _ _
  · simp only [pan_orbit_camera, frameMid, commitStep_target_focus,
      constrainStep_target_focus, apply_focus_limits_z, zoomStep_fzu,
      movementStep_fzu, upsideDownStep_fzu, initStep_fzu, hz]
    exact apply_limits_le_upper _ _ _

/-- C2: the zoom clamp never returns less than 0.05 whatever the configured
limits, and after any full frame of the engine both target_radius and
target_scale are at least 0.05; the current radius/scale are written through
the same clamp whenever the engine writes them via it. -/
theorem c2_zoom_floor (u : UtilModel) (active : ActiveCameraData)
    (input : FrameInput) (entity : Nat) (st : PanOrbitCamera) (tf : Transform)
    (proj : Projection) (z : ℚ) :
    1/20 ≤ apply_zoom_limits st z ∧
    1/20 ≤ ((pan_orbit_camera u active input entity st tf proj).1).target_radius ∧
    1/20 ≤ ((pan_orbit_camera u active input entity st tf proj).1).target_scale := by
  refine ⟨apply_zoom_limits_ge st z, ?_, ?_⟩
  · simp only [pan_orbit_camera, frameMid, commitStep_target_radius,
      constrainStep_target_radius]
    exact apply_zoom_limits_ge _ _
  · simp only [pan_orbit_camera, frameMid, commitStep_target_scale,
      constrainStep_target_scale]
    exact apply_zoom_limits_ge _ _

/-- C6: the constraint step runs on every frame of every instance regardless
of input, and whenever upside-down is not allowed the post-frame target_beta
lies within plus/minus half pi, independently of any configured beta
limits. -/
theorem c6_beta_hard_clamp (u : UtilModel) (active : ActiveCameraData)
    (input : FrameInput) (entity : Nat) (st : PanOrbitCamera) (tf : Transform)
    (proj : Projection) (h : st.allow_upside_down = false) :
    -(PI / 2) ≤ ((pan_orbit_camera u active input entity st tf proj).1).target_beta ∧
    ((pan_orbit_camera u active input entity st tf proj).1).target_beta ≤ PI / 2 := by
  simp only [pan_orbit_camera, frameMid, commitStep_target_beta]
  rw [constrainStep_target_beta_of_not_allowed]
  · exact apply_limits_mem _ _ _ (by norm_num [PI])
  · simp [h]

/-- C4: for an initialized instance, is_upside_down is recomputed exactly on
the (gated) frames where the orbit combo just transitioned, never otherwise;
when recomputed it becomes true exactly when target_beta wrapped into the
interval from 0 to two pi by modulo lies strictly between half pi and three
halves pi. -/
theorem c4_upside_down_recompute (u : UtilModel) (active : ActiveCameraData)
    (input : FrameInput) (entity : Nat) (st : PanOrbitCamera) (tf : Transform)
    (proj : Projection) (hi : st.initialized = true) :
    ((pan_orbit_camera u active input entity st tf proj).1).is_upside_down =
      if (input.pointerOverEgui = false ∧ st.enabled = true ∧
            active.entity = some entity) ∧
          (input.orbitJustPressed = true ∨ input.orbitJustReleased = true)
      then decide (PI / 2 < qmod st.target_beta TAU ∧
          qmod st.target_beta TAU < 3 * PI / 2)
      else st.is_upside_down := by
  have hinit := initStep_of_initialized u st tf proj hi
  simp only [pan_orbit_camera, frameMid, hinit, commitStep_upside,
    constrainStep_upside, zoomStep_upside, movementStep_upside]
  rw [upsideDownStep_is_upside_down, gatherInput_obc]
  by_cases hg : input.pointerOverEgui = false ∧ st.enabled = true ∧
      active.entity = some entity
  · rw [if_pos hg]
    by_cases hb : (input.orbitJustPressed || input.orbitJustReleased) = true
    · rw [hb, if_pos rfl, if_pos (And.intro hg (Bool.or_eq_true _ _ |>.mp hb))]
      rw [decide_eq_decide]
      rw [← TAU_div_four, ← TAU_three_quarters]
      exact abs_rustRem_window_iff _ _ TAU_pos
    · have hb2 : (input.orbitJustPressed || input.orbitJustReleased) = false :=
        Bool.not_eq_true _ |>.mp hb
      rw [hb2, if_neg, if_neg]
      · rintro ⟨-, hor⟩
        rcases hor with h | h <;> simp [h] at hb2
      · exact Bool.false_ne_true
  · rw [if_neg hg, if_neg Bool.false_ne_true, if_neg (fun hc => hg hc.1)]

/-- C7: for an initialized instance with current alpha, beta and radius, the
transform is recomputed and written only when the commit guard holds (new
input moved a target, some target differs from its current counterpart, or
force_update); otherwise the frame leaves transform, projection, focus,
alpha, beta, radius and scale untouched; and whenever the guard holds the
write clears force_update. -/
theorem c7_commit_gate (u : UtilModel) (active : ActiveCameraData)
    (input : FrameInput) (entity : Nat) (st : PanOrbitCamera) (tf : Transform)
    (proj : Projection) (a b r : ℚ)
    (hi : st.initialized = true) (ha : st.alpha = some a)
    (hb : st.beta = some b) (hr : st.radius = some r) :
    (¬ commitCond (frameMid u active input entity st tf proj).1
        (frameMid u active input entity st tf proj).2 →
      pan_orbit_camera u active input entity st tf proj =
        ((frameMid u active input entity st tf proj).1, tf, proj) ∧
      ((frameMid u active input entity st tf proj).1).focus = st.focus ∧
      ((frameMid u active input entity st tf proj).1).alpha = st.alpha ∧
      ((frameMid u active input entity st tf proj).1).beta = st.beta ∧
      ((frameMid u active input entity st tf proj).1).radius = st.radius ∧
      ((frameMid u active input entity st tf proj).1).scale = st.scale) ∧
    (commitCond (frameMid u active input entity st tf proj).1
        (frameMid u active input entity st tf proj).2 →
      ((pan_orbit_camera u active input entity st tf proj).1).force_update = false) := by
  have hinit := initStep_of_initialized u st tf proj hi
  constructor
  · intro hnc
    have hm : (frameMid u active input entity st tf proj).2 = false := by
      rcases Bool.eq_false_or_eq_true (frameMid u active input entity st tf proj).2
        with h | h
      · exact absurd (Or.inl h : commitCond
          (frameMid u active input entity st tf proj).1
          (frameMid u active input entity st tf proj).2) hnc
      · exact h
    have hM1 : (frameMid u active input entity st tf proj).1 =
        constrainStep (upsideDownStep
          (gatherInput active input st entity).orbit_button_changed st) := by
      simp only [frameMid, hinit] at hm ⊢
      obtain ⟨hmv, hzm⟩ := Bool.or_eq_false_iff.mp hm
      rw [zoomStep_not_moved _ _ _ _ hzm, movementStep_not_moved _ _ _ _ _ _ _ hmv]
    have hMa : (frameMid u active input entity st tf proj).1.alpha = some a := by
      rw [hM1]
      simp [ha]
    have hMb : (frameMid u active input entity st tf proj).1.beta = some b := by
      rw [hM1]
      simp [hb]
    have hMr : (frameMid u active input entity st tf proj).1.radius = some r := by
      rw [hM1]
      simp [hr]
    refine ⟨?_, ?_, ?_, ?_, ?_, ?_⟩
    · simp only [pan_orbit_camera, hinit]
      exact commitStep_eq_of_not_cond u _ tf proj _ a b r hMa hMb hMr hnc
    · rw [hM1]
      simp
    · rw [hM1]
      simp
    · rw [hM1]
      simp
    · rw [hM1]
      simp
    · rw [hM1]
      simp
  · intro hc
    have hMa : (frameMid u active input entity st tf proj).1.alpha = some a := by
      simp only [frameMid, hinit]
      simp [ha]
    have hMb : (frameMid u active input entity st tf proj).1.beta = some b := by
      simp only [frameMid, hinit]
      simp [hb]
    have hMr : (frameMid u active input entity st tf proj).1.radius.isSome = true := by
      simp only [frameMid, hinit]
      simp [hr]
    obtain ⟨r2, hr2⟩ := Option.isSome_iff_exists.mp hMr
    simp only [pan_orbit_camera, hinit]
    exact commitStep_force_update_of_cond u _ tf proj _ a b r2 hMa hMb hr2 hc

/-- C10 (amended): when initialized is already true while alpha, beta or
radius is still missing, the frame skips both the initialization branch and
the commit branch: transform, projection, focus, alpha, beta and
force_update are untouched (while targets, is_upside_down, and - through the
zoom step's direct clamped write - the current radius/scale can still
change). -/
theorem c10_amended (u : UtilModel) (active : ActiveCameraData)
    (input : FrameInput) (entity : Nat) (st : PanOrbitCamera) (tf : Transform)
    (proj : Projection) (hi : st.initialized = true)
    (hnone : st.alpha = none ∨ st.beta = none ∨ st.radius = none) :
    (pan_orbit_camera u active input entity st tf proj).2.1 = tf ∧
    (pan_orbit_camera u active input entity st tf proj).2.2 = proj ∧
    ((pan_orbit_camera u active input entity st tf proj).1).focus = st.focus ∧
    ((pan_orbit_camera u active input entity st tf proj).1).alpha = st.alpha ∧
    ((pan_orbit_camera u active input entity st tf proj).1).beta = st.beta ∧
    ((pan_orbit_camera u active input entity st tf proj).1).force_update =
      st.force_update := by
  have hinit := initStep_of_initialized u st tf proj hi
  have hMnone : (frameMid u active input entity st tf proj).1.alpha = none ∨
      (frameMid u active input entity st tf proj).1.beta = none ∨
      (frameMid u active input entity st tf proj).1.radius = none := by
    rcases hnone with h | h | h
    · refine Or.inl ?_
      simp only [frameMid, hinit]
      simp [h]
    · refine Or.inr (Or.inl ?_)
      simp only [frameMid, hinit]
      simp [h]
    · refine Or.inr (Or.inr ?_)
      have : (frameMid u active input entity st tf proj).1.radius.isSome = false := by
        simp only [frameMid, hinit]
        simp [h]
      exact Option.not_isSome_iff_eq_none.mp (by simp [this])
  have e : pan_orbit_camera u active input entity st tf proj =
      ((frameMid u active input entity st tf proj).1, tf, proj) := by
    simp only [pan_orbit_camera, hinit]
    exact commitStep_of_none u _ tf proj _ hMnone
  rw [e]
  refine ⟨rfl, rfl, ?_, ?_, ?_, ?_⟩
  · simp only [frameMid, hinit]
    simp
  · simp only [frameMid, hinit]
    simp
  · simp only [frameMid, hinit]
    simp
  · simp only [frameMid, hinit]
    simp

/-- C8: a freshly created camera (the Default impl) has alpha, beta, radius
and scale unset and initialized false; one run of the update engine sets
initialized and makes all four current values present - scale included, for
perspective as well as orthographic cameras - and any later run preserves
this. -/
theorem c8_option_until_init (u : UtilModel) (active : ActiveCameraData)
    (input : FrameInput) (entity : Nat) (tf : Transform) (proj : Projection) :
    PanOrbitCamera.default.initialized = false ∧
    PanOrbitCamera.default.alpha = none ∧
    PanOrbitCamera.default.beta = none ∧
    PanOrbitCamera.default.radius = none ∧
    PanOrbitCamera.default.scale = none ∧
    (((pan_orbit_camera u active input entity PanOrbitCamera.default tf proj).1).initialized = true ∧
      ((pan_orbit_camera u active input entity PanOrbitCamera.default tf proj).1).alpha.isSome = true ∧
      ((pan_orbit_camera u active input entity PanOrbitCamera.default tf proj).1).beta.isSome = true ∧
      ((pan_orbit_camera u active input entity PanOrbitCamera.default tf proj).1).radius.isSome = true ∧
      ((pan_orbit_camera u active input entity PanOrbitCamera.default tf proj).1).scale.isSome = true) ∧
    (∀ (st2 : PanOrbitCamera) (tf2 : Transform) (proj2 : Projection),
      st2.initialized = true → st2.alpha.isSome = true →
      st2.beta.isSome = true → st2.radius.isSome = true →
      st2.scale.isSome = true →
      ((pan_orbit_camera u active input entity st2 tf2 proj2).1).initialized = true ∧
      ((pan_orbit_camera u active input entity st2 tf2 proj2).1).alpha.isSome = true ∧
      ((pan_orbit_camera u active input entity st2 tf2 proj2).1).beta.isSome = true ∧
      ((pan_orbit_camera u active input entity st2 tf2 proj2).1).radius.isSome = true ∧
      ((pan_orbit_camera u active input entity st2 tf2 proj2).1).scale.isSome = true) := by
  refine ⟨rfl, rfl, rfl, rfl, rfl, ⟨?_, ?_, ?_, ?_, ?_⟩, ?_⟩
  · simp only [pan_orbit_camera, frameMid]
    simp
  · simp only [pan_orbit_camera, frameMid]
    simp [initStep_alpha_isSome_of_uninit u PanOrbitCamera.default tf proj rfl]
  · simp only [pan_orbit_camera, frameMid]
    simp [initStep_beta_isSome_of_uninit u PanOrbitCamera.default tf proj rfl]
  · simp only [pan_orbit_camera, frameMid]
    simp [initStep_radius_isSome_of_uninit u PanOrbitCamera.default tf proj rfl]
  · rcases proj with ⟨fov, aspect⟩ | ⟨s, aw, ah⟩
    · simp only [pan_orbit_camera]
      apply commitStep_writes_scale
      · simp only [frameMid]
        simp [initStep_alpha_isSome_of_uninit u PanOrbitCamera.default tf
          (Projection.perspective fov aspect) rfl]
      · simp only [frameMid]
        simp [initStep_beta_isSome_of_uninit u PanOrbitCamera.default tf
          (Projection.perspective fov aspect) rfl]
      · simp only [frameMid]
        simp [initStep_radius_isSome_of_uninit u PanOrbitCamera.default tf
          (Projection.perspective fov aspect) rfl]
      · simp only [frameMid]
        simp [initStep_persp_proj, zoomStep_persp_scale, initStep_persp_scale,
          PanOrbitCamera.default]
    · simp only [pan_orbit_camera]
      apply commitStep_scale_isSome_of
      simp only [frameMid]
      simp [initStep_ortho_scale_isSome u PanOrbitCamera.default tf s aw ah rfl]
  · intro st2 tf2 proj2 h1 h2 h3 h4 h5
    have hinit := initStep_of_initialized u st2 tf2 proj2 h1
    refine ⟨?_, ?_, ?_, ?_, ?_⟩
    · simp only [pan_orbit_camera, frameMid, hinit]
      simp [h1]
    · simp only [pan_orbit_camera, frameMid, hinit]
      simp [h2]
    · simp only [pan_orbit_camera, frameMid, hinit]
      simp [h3]
    · simp only [pan_orbit_camera, frameMid, hinit]
      simp [h4]
    · simp only [pan_orbit_camera, hinit]
      apply commitStep_scale_isSome_of
      simp only [frameMid, hinit]
      simp [h5]

/-- Concrete instantiation of the abstract util helpers, used to evaluate
the engine on explicit inputs. -/
def u0 : UtilModel where
  calculate_from_translation_and_focus := fun _ _ => (0, 0, 1)
  update_orbit_transform := fun _ _ _ f => ⟨f, ⟨1, 0, 0⟩, ⟨0, 1, 0⟩⟩
  normalize_or_zero := fun v => v

/-- A concrete transform for evaluation. -/
def tfU : Transform := ⟨Vec3.zero, ⟨1, 0, 0⟩, ⟨0, 1, 0⟩⟩

/-- An active-camera record pointing at entity 7. -/
def active7 : ActiveCameraData := ⟨some 7, some ⟨100, 100⟩, some ⟨100, 100⟩, false⟩

/-- A frame whose only input is a single touchpad magnify event of
magnitude 10. -/
def magInput : FrameInput :=
  ⟨Vec2.zero, [], [10], [], false, false, false, false, fun _ => false, false⟩

/-- An initialized orthographic camera state with unit scale. -/
def c3cam : PanOrbitCamera :=
  { PanOrbitCamera.default with
    initialized := true
    alpha := some 0
    beta := some 0
    radius := some 1
    scale := some 1 }

/-- An orthographic projection with unit scale. -/
def c3proj : Projection := Projection.orthographic 1 2 2

/-- C3: when the accumulated zoom input is nonzero the zoom step picks the
reference pair by projection, adds the combined geometric delta (line plus
pixel accumulators, times the pre-update target, times 0.2, negated) to the
target, and adds the pixel part alone to the current value through the zoom
clamp; concretely, a single magnify event of magnitude 10 on an orthographic
camera with unit scale changes both scale and target_scale within one
frame. -/
theorem c3_zoom_reference_update (st : PanOrbitCamera) (proj : Projection)
    (sl sp : ℚ) (h : sl + sp ≠ 0) :
    (zoomStep st proj sl sp).2 = true ∧
    (∀ s aw ah, proj = Projection.orthographic s aw ah →
      ((zoomStep st proj sl sp).1).target_scale =
        st.target_scale + (-(sl + sp) * st.target_scale * (1/5)) ∧
      ((zoomStep st proj sl sp).1).scale =
        st.scale.map (fun v =>
          apply_zoom_limits st (v + -sp * st.target_scale * (1/5))) ∧
      ((zoomStep st proj sl sp).1).target_radius = st.target_radius ∧
      ((zoomStep st proj sl sp).1).radius = st.radius) ∧
    (∀ fov aspect, proj = Projection.perspective fov aspect →
      ((zoomStep st proj sl sp).1).target_radius =
        st.target_radius + (-(sl + sp) * st.target_radius * (1/5)) ∧
      ((zoomStep st proj sl sp).1).radius =
        st.radius.map (fun v =>
          apply_zoom_limits st (v + -sp * st.target_radius * (1/5))) ∧
      ((zoomStep st proj sl sp).1).target_scale = st.target_scale ∧
      ((zoomStep st proj sl sp).1).scale = st.scale) ∧
    (((pan_orbit_camera u0 active7 magInput 7 c3cam tfU c3proj).1).target_scale ≠
        c3cam.target_scale ∧
      ((pan_orbit_camera u0 active7 magInput 7 c3cam tfU c3proj).1).scale ≠
        c3cam.scale) := by
  have habs : 0 < |sl + sp| := abs_pos.mpr h
  refine ⟨?_, ?_, ?_, ?_⟩
  · unfold zoomStep
    rw [if_pos habs]
    cases proj <;> rfl
  · rintro s aw ah rfl
    unfold zoomStep
    rw [if_pos habs]
    refine ⟨?_, rfl, rfl, rfl⟩
    · show st.target_scale +
          (-sl * st.target_scale * (1/5) + -sp * st.target_scale * (1/5)) =
        st.target_scale + (-(sl + sp) * st.target_scale * (1/5))
      ring
  · rintro fov aspect rfl
    unfold zoomStep
    rw [if_pos habs]
    refine ⟨?_, rfl, rfl, rfl⟩
    · show st.target_radius +
          (-sl * st.target_radius * (1/5) + -sp * st.target_radius * (1/5)) =
        st.target_radius + (-(sl + sp) * st.target_radius * (1/5))
      ring
  · constructor <;>
    · norm_num [pan_orbit_camera, frameMid, initStep, gatherInput,
        upsideDownStep, movementStep, zoomStep, constrainStep, commitStep,
        lerp_and_snap_f32, lerp_and_snap_vec3, apply_limits, apply_zoom_limits,
        apply_alpha_limits, apply_beta_limits, apply_focus_limits, rustSignum,
        u0, tfU, active7, magInput, c3cam, c3proj, PanOrbitCamera.default,
        Vec2.zero, Vec3.zero, Vec2.lengthSquared, PI, TAU, List.foldl,
        commitCond]

/-- An initialized perspective camera state whose alpha was cleared
externally while radius is still present. -/
def c10cam : PanOrbitCamera :=
  { PanOrbitCamera.default with
    initialized := true
    beta := some 0
    radius := some 1 }

/-- A perspective projection for the counterexample run. -/
def c10proj : Projection := Projection.perspective 1 1

/-- C10 counterexample: with initialized true and alpha still none, a frame
with a single magnify event mutates the current radius through the zoom
step's direct write, contradicting the claim that radius is never mutated in
that situation. -/
theorem c10_counterexample :
    c10cam.initialized = true ∧ c10cam.alpha = none ∧
    ((pan_orbit_camera u0 active7 magInput 7 c10cam tfU c10proj).1).radius ≠
      c10cam.radius := by
  refine ⟨rfl, rfl, ?_⟩
  norm_num [pan_orbit_camera, frameMid, initStep, gatherInput,
    upsideDownStep, movementStep, zoomStep, constrainStep, commitStep,
    lerp_and_snap_f32, lerp_and_snap_vec3, apply_limits, apply_zoom_limits,
    apply_alpha_limits, apply_beta_limits, apply_focus_limits, rustSignum,
    u0, tfU, active7, magInput, c10cam, c10proj, PanOrbitCamera.default,
    Vec2.zero, Vec3.zero, Vec2.lengthSquared, PI, TAU, List.foldl, commitCond]

/-- Two overlapping window-backed cameras: entity 0 with draw order 0 and
viewport from the origin to 10, entity 1 with draw order 1 and viewport from
5 to 15; the pointer at 7 lies strictly inside both; the orbit button was
just pressed. -/
def rcam0 : ResolverCamera :=
  ⟨0, 0, true, some ⟨7, 7⟩, some (⟨0, 0⟩, ⟨10, 10⟩), some ⟨10, 10⟩,
    ⟨100, 100⟩, true, false⟩

/-- Second overlapping camera, draw order 1. -/
def rcam1 : ResolverCamera :=
  ⟨1, 1, true, some ⟨7, 7⟩, some (⟨5, 5⟩, ⟨15, 15⟩), some ⟨10, 10⟩,
    ⟨100, 100⟩, true, false⟩

/-- C5: with two overlapping viewports of draw orders 0 and 1 and the
pointer inside the overlap with relevant input, the order-1 camera wins in
either scan order; with equal orders the later instance wins; and a pointer
exactly on the viewport boundary is not strictly inside, so nothing is
selected and the record resets to the default. -/
theorem c5_active_target_order :
    (active_viewport_data false [rcam0, rcam1] ActiveCameraData.default).entity =
      some 1 ∧
    (active_viewport_data false [rcam1, rcam0] ActiveCameraData.default).entity =
      some 1 ∧
    (active_viewport_data false [rcam0, { rcam1 with order := 0 }]
      ActiveCameraData.default).entity = some 1 ∧
    active_viewport_data false [{ rcam0 with cursorPos := some ⟨0, 5⟩ }]
      ActiveCameraData.default = ActiveCameraData.default := by
  refine ⟨?_, ?_, ?_, ?_⟩ <;> decide

/-- C9: the best-order tracker starts at 0, so a single window-backed camera
with a negative draw order is never selected even with the pointer anywhere
in its viewport and relevant input; the record is replaced by the default
record instead. -/
theorem c9_negative_order_never_selected (cam : ResolverCamera)
    (scrollNE : Bool) (active : ActiveCameraData) (hneg : cam.order < 0)
    (hact : cam.orbitJustPressed = true ∨ cam.panJustPressed = true ∨
      scrollNE = true) :
    active_viewport_data scrollNE [cam] active = ActiveCameraData.default := by
  have hb : (cam.orbitJustPressed || cam.panJustPressed || scrollNE) = true := by
    rcases hact with h | h | h <;> simp [h]
  unfold active_viewport_data
  simp only [List.foldl_cons, List.foldl_nil]
  unfold resolverScan
  simp only [hb, eq_self_iff_true, if_true]
  by_cases hw : cam.windowTarget = true
  · rcases hcp : cam.cursorPos with _ | cp
    · simp [hw, hcp]
    · rcases hvr : cam.viewportRect with _ | r
      · simp [hw, hcp, hvr]
      · simp only [hw, hcp, hvr, if_true]
        have hni : ¬ ((r.1.x < cp.x ∧ cp.x < r.2.x ∧ r.1.y < cp.y ∧
            cp.y < r.2.y) ∧ 0 ≤ cam.order) :=
          fun hc => absurd hneg (not_lt.mpr hc.2)
        rw [if_neg hni]
        simp
  · simp [hw]

/-- A default camera with focus upper limits configured on all three axes. -/
def c1cam : PanOrbitCamera :=
  { PanOrbitCamera.default with
    focus_x_upper_limit := some 5
    focus_y_upper_limit := some 6
    focus_z_upper_limit := some 7 }

theorem c1_witness :
    ((pan_orbit_camera u0 active7 magInput 7 c1cam tfU c3proj).1).target_focus.x ≤ 5 ∧
    ((pan_orbit_camera u0 active7 magInput 7 c1cam tfU c3proj).1).target_focus.y ≤ 6 ∧
    ((pan_orbit_camera u0 active7 magInput 7 c1cam tfU c3proj).1).target_focus.z ≤ 7 :=
  ⟨(c1_focus_axis_upper_limits u0 active7 magInput 7 c1cam tfU c3proj).1 5 rfl,
    (c1_focus_axis_upper_limits u0 active7 magInput 7 c1cam tfU c3proj).2.1 6 rfl,
    (c1_focus_axis_upper_limits u0 active7 magInput 7 c1cam tfU c3proj).2.2 7 rfl⟩

theorem c3_witness :
    ((pan_orbit_camera u0 active7 magInput 7 c3cam tfU c3proj).1).target_scale ≠
      c3cam.target_scale ∧
    ((pan_orbit_camera u0 active7 magInput 7 c3cam tfU c3proj).1).scale ≠
      c3cam.scale :=
  (c3_zoom_reference_update c3cam c3proj 0 20 (by norm_num)).2.2.2

/-- A frame whose only input is the orbit button having just been pressed. -/
def c4input : FrameInput :=
  ⟨Vec2.zero, [], [], [], false, false, true, false, fun _ => false, false⟩

theorem c4_witness :
    ((pan_orbit_camera u0 active7 c4input 7 c3cam tfU c3proj).1).is_upside_down =
      if (c4input.pointerOverEgui = false ∧ c3cam.enabled = true ∧
            active7.entity = some 7) ∧
          (c4input.orbitJustPressed = true ∨ c4input.orbitJustReleased = true)
      then decide (PI / 2 < qmod c3cam.target_beta TAU ∧
          qmod c3cam.target_beta TAU < 3 * PI / 2)
      else c3cam.is_upside_down :=
  c4_upside_down_recompute u0 active7 c4input 7 c3cam tfU c3proj rfl

theorem c6_witness :
    -(PI / 2) ≤ ((pan_orbit_camera u0 active7 magInput 7 c3cam tfU c3proj).1).target_beta ∧
    ((pan_orbit_camera u0 active7 magInput 7 c3cam tfU c3proj).1).target_beta ≤ PI / 2 :=
  c6_beta_hard_clamp u0 active7 magInput 7 c3cam tfU c3proj rfl

theorem c7_witness :
    ((pan_orbit_camera u0 active7 magInput 7 c3cam tfU c3proj).1).force_update = false :=
  (c7_commit_gate u0 active7 magInput 7 c3cam tfU c3proj 0 0 1 rfl rfl rfl rfl).2
    (Or.inl (by
      norm_num [frameMid, initStep, gatherInput, upsideDownStep, movementStep,
        zoomStep, constrainStep, u0, tfU, active7, magInput, c3cam, c3proj,
        PanOrbitCamera.default, Vec2.zero, Vec2.lengthSquared, List.foldl,
        apply_limits, apply_zoom_limits, apply_alpha_limits, apply_beta_limits,
        apply_focus_limits, PI, TAU, rustSignum]))

theorem c8_witness :
    ((pan_orbit_camera u0 active7 magInput 7 PanOrbitCamera.default tfU c3proj).1).initialized = true ∧
    ((pan_orbit_camera u0 active7 magInput 7 c3cam tfU c3proj).1).scale.isSome = true :=
  ⟨(c8_option_until_init u0 active7 magInput 7 tfU c3proj).2.2.2.2.2.1.1,
    ((c8_option_until_init u0 active7 magInput 7 tfU c3proj).2.2.2.2.2.2 c3cam
      tfU c3proj rfl rfl rfl rfl rfl).2.2.2.2⟩

/-- A single window-backed camera with negative draw order and the pointer
strictly inside its viewport. -/
def rcamNeg : ResolverCamera :=
  ⟨4, -1, true, some ⟨5, 5⟩, some (⟨0, 0⟩, ⟨10, 10⟩), some ⟨10, 10⟩,
    ⟨100, 100⟩, true, false⟩

/-- A non-default record to make the replacement visible. -/
def someActive : ActiveCameraData := ⟨some 3, none, none, false⟩

theorem c9_witness :
    active_viewport_data false [rcamNeg] someActive = ActiveCameraData.default :=
  c9_negative_order_never_selected rcamNeg false someActive (by decide) (Or.inl rfl)

theorem c10_witness :
    (pan_orbit_camera u0 active7 magInput 7 c10cam tfU c10proj).2.1 = tfU ∧
    (pan_orbit_camera u0 active7 magInput 7 c10cam tfU c10proj).2.2 = c10proj ∧
    ((pan_orbit_camera u0 active7 magInput 7 c10cam tfU c10proj).1).focus = c10cam.focus ∧
    ((pan_orbit_camera u0 active7 magInput 7 c10cam tfU c10proj).1).alpha = c10cam.alpha ∧
    ((pan_orbit_camera u0 active7 magInput 7 c10cam tfU c10proj).1).beta = c10cam.beta ∧
    ((pan_orbit_camera u0 active7 magInput 7 c10cam tfU c10proj).1).force_update =
      c10cam.force_update :=
  c10_amended u0 active7 magInput 7 c10cam tfU c10proj rfl (Or.inl rfl)

end POC
